import Mathlib

/-!
Verification of the session/state-management layer and the archive/resource
HTTP clients of the repository.

The embedding is shallow: JavaScript values flowing through the code are
modelled by an inductive `Json` type; the React state triple
(`user`, `loading`, `error`) together with the durable `localStorage`
entry for the user key forms `AuthState`; each operation of the
`AuthProvider` becomes a pure state transformer.  Platform functions that
the code calls but does not define (`JSON.parse`, `encodeURIComponent`,
the XHR transport, the auth backend) are taken as parameters; the outcome
of an awaited backend call is an `Except` value.
-/

/-- JavaScript/JSON values as they appear in this layer: `JSON.parse`
results, user records, response bodies.  `null` doubles as the JS `null`
used for the unauthenticated `user` state. -/
inductive Json where
  | null : Json
  | bool : Bool → Json
  | num : Int → Json
  | str : String → Json
  | arr : List Json → Json
  | obj : List (String × Json) → Json

/-- Escaping of one character inside a JSON string literal
(mirrors what `JSON.stringify` does for quotes and backslashes). -/
def escapeJsonChar (c : Char) : String :=
  if c = '"' then "\\\"" else if c = '\\' then "\\\\" else String.singleton c

/-- Escape a whole string for inclusion in a JSON string literal. -/
def escapeJsonString (s : String) : String :=
  s.data.foldl (fun acc c => acc ++ escapeJsonChar c) ""

mutual

/-- Model of the platform `JSON.stringify` on our `Json` values. -/
def Json.stringify : Json → String
  | .null => "null"
  | .bool true => "true"
  | .bool false => "false"
  | .num n => toString n
  | .str s => "\"" ++ escapeJsonString s ++ "\""
  | .arr xs => "[" ++ Json.stringifyElems xs ++ "]"
  | .obj fs => "\x7b" ++ Json.stringifyFields fs ++ "\x7d"

/-- Comma-separated serialization of array elements. -/
def Json.stringifyElems : List Json → String
  | [] => ""
  | [x] => Json.stringify x
  | x :: xs => Json.stringify x ++ "," ++ Json.stringifyElems xs

/-- Comma-separated serialization of object fields. -/
def Json.stringifyFields : List (String × Json) → String
  | [] => ""
  | [(k, v)] => "\"" ++ escapeJsonString k ++ "\":" ++ Json.stringify v
  | (k, v) :: fs =>
      "\"" ++ escapeJsonString k ++ "\":" ++ Json.stringify v ++ "," ++
        Json.stringifyFields fs

end

/-- The state of the `AuthProvider` session store: the three React state
slots (`user`, `loading`, `error`) plus the durable `localStorage` entry
under the user key (`none` = entry absent). JS `null` for `error` is
`Option.none`; the unauthenticated `user` is `Json.null`, matching
`useState(null)`. -/
structure AuthState where
  user : Json
  loading : Bool
  error : Option String
  storage : Option String

/-- The initial state of a fresh `AuthProvider` mount over a given durable
entry: `user = null`, `loading = true`, `error = null`. -/
def initialAuthState (storage : Option String) : AuthState :=
  { user := Json.null, loading := true, error := none, storage := storage }

/-- The startup restore effect of `AuthProvider` (the `useEffect` body):
reads the durable entry; when it is truthy (present and nonempty) parses
it with `JSON.parse` and stores the parsed value in `user`; a parse
failure is caught, logged, and the entry removed; `finally` always clears
`loading`.  `parse` models `JSON.parse` (`none` = the parse throws). -/
def restore (parse : String → Option Json) (st : AuthState) : AuthState :=
  match st.storage with
  | some s =>
      if s ≠ "" then
        match parse s with
        | some v => { st with user := v, loading := false }
        | none => { st with storage := none, loading := false }
      else
        { st with loading := false }
  | none => { st with loading := false }

/-- The `login` operation.  `result` is the settled outcome of
`authService.loginUser(email, pass)` (`.error e` carries `err.message`).
Sets `loading` and clears `error` up front; on success stores the user in
state and durably (via `JSON.stringify`) and returns it; on failure
records the message and re-raises; `finally` always clears `loading`.
Returns the final state and what the promise does (returns or throws). -/
def login (result : Except String Json) (st : AuthState) :
    AuthState × Except String Json :=
  let st1 : AuthState := { st with loading := true, error := none }
  match result with
  | .ok u =>
      ({ st1 with user := u, storage := some (Json.stringify u), loading := false },
       .ok u)
  | .error e =>
      ({ st1 with error := some e, loading := false }, .error e)

/-- The `signup` operation.  `result` is the settled outcome of
`authService.createUser(...)`.  Sets `loading` and clears `error` up
front; on success touches neither `user` nor the durable entry; on
failure records the message and re-raises; `finally` clears `loading`. -/
def signup (result : Except String Unit) (st : AuthState) :
    AuthState × Except String Unit :=
  let st1 : AuthState := { st with loading := true, error := none }
  match result with
  | .ok _ => ({ st1 with loading := false }, .ok ())
  | .error e => ({ st1 with error := some e, loading := false }, .error e)

/-- The `logout` operation: clears `user` and removes the durable entry. -/
def logout (st : AuthState) : AuthState :=
  { st with user := Json.null, storage := none }

/-- The `updateCurrentUser` operation: replaces `user` and persists it. -/
def updateCurrentUser (u : Json) (st : AuthState) : AuthState :=
  { st with user := u, storage := some (Json.stringify u) }

/-! ### Archive upload client (`src/services/archiveService.ts`, upload part) -/

/-- JS `String.prototype.startsWith`, stated over the character data so
that prefix facts are provable. Extensionally it is `String.startsWith`. -/
def strStartsWith (s pre : String) : Bool :=
  pre.data.isPrefixOf s.data

/-- The function `getMediaType` classifies the media kind of a file from its declared
content type, in the branch order of the source (video, pdf, image, default). -/
def getMediaType (fileType : String) : String :=
  if strStartsWith fileType "video/" then "movies"
  else if fileType = "application/pdf" then "texts"
  else if strStartsWith fileType "image/" then "image"
  else "texts"

/-- The configuration-error message `uploadFile` rejects with when the
archive credentials are unset. -/
def configErrorMessage : String :=
  "Archive service API keys are not configured. Please set ARCHIVE_ACCESS_KEY and ARCHIVE_SECRET_KEY environment variables."

/-- The PUT request `uploadFile` issues: its URL, headers and content
type.  Building one of these models observable transport activity. -/
structure UploadReq where
  url : String
  headers : List (String × String)
  contentType : String

/-- What the XHR transport reports back: a response with a status line and
body, or a transport-level error (`onerror`). -/
inductive TransportResult where
  | status : Nat → String → String → TransportResult
  | netError : TransportResult

/-- The function `uploadFile` rejects up front when either credential is the empty
string (JS falsiness of `ACCESS_KEY`/`SECRET_KEY`); otherwise builds the
PUT request with the Internet Archive headers and settles from the
transport result: 2xx resolves with the derived public URL, other
statuses reject with a descriptive message, transport error rejects with
the network message.  `enc` models `encodeURIComponent`; `transport`
models the XHR exchange. -/
def uploadFile (accessKey secretKey : String) (enc : String → String)
    (fileName fileType itemName : String)
    (transport : UploadReq → TransportResult) : Except String String :=
  if accessKey = "" ∨ secretKey = "" then
    .error configErrorMessage
  else
    let req : UploadReq :=
      { url := "https://s3.us.archive.org/" ++ itemName ++ "/" ++ enc fileName
        headers :=
          [("Authorization", "LOW " ++ accessKey ++ ":" ++ secretKey),
           ("x-amz-auto-make-bucket", "1"),
           ("x-archive-meta-collection", "opensource"),
           ("x-archive-meta-mediatype", getMediaType fileType),
           ("Content-Type", fileType)]
        contentType := fileType }
    match transport req with
    | .status code statusText respText =>
        if 200 ≤ code ∧ code < 300 then
          .ok ("https://archive.org/download/" ++ itemName ++ "/" ++ enc fileName)
        else
          .error ("Upload failed: " ++ toString code ++ " " ++ statusText ++
            " - " ++ respText)
    | .netError => .error "Network error during upload."

/-! ### Resource backend client (`src/services/archiveService.ts`, CRUD part) -/

/-- JS truthiness of a value (`undefined` is handled at use sites via
`Option`). -/
def Json.truthy : Json → Bool
  | .null => false
  | .bool b => b
  | .num n => n != 0
  | .str s => s != ""
  | .arr _ => true
  | .obj _ => true

/-- Field lookup in the field list of an object (first match wins, as JS
objects have unique keys). `none` = the property is `undefined`. -/
def lookupField : List (String × Json) → String → Option Json
  | [], _ => none
  | (k, v) :: fs, key => if k = key then some v else lookupField fs key

/-- The JS object literal `{...fs, key: v}` restricted to the overwritten
key: replaces the first binding of `key` in place, or appends one. -/
def setField : List (String × Json) → String → Json → List (String × Json)
  | [], key, v => [(key, v)]
  | (k, w) :: fs, key, v =>
      if k = key then (key, v) :: fs else (k, w) :: setField fs key v

/-- JS property access `o.key`: throws a `TypeError` on `null`, yields the
field on objects, `undefined` (`none`) on other values. -/
def Json.getProp : Json → String → Except String (Option Json)
  | .null, _ => .error "TypeError: cannot read properties of null"
  | .obj fs, key => .ok (lookupField fs key)
  | _, _ => .ok none

mutual

/-- JS `String(v)` coercion on our values. -/
def jsToString : Json → String
  | .null => "null"
  | .bool true => "true"
  | .bool false => "false"
  | .num n => toString n
  | .str s => s
  | .arr xs => jsToStringElems xs
  | .obj _ => "[object Object]"

/-- JS `Array.prototype.toString`: elements joined by commas, `null`
rendering as the empty string. -/
def jsToStringElems : List Json → String
  | [] => ""
  | [.null] => ""
  | [x] => jsToString x
  | .null :: xs => "," ++ jsToStringElems xs
  | x :: xs => jsToString x ++ "," ++ jsToStringElems xs

end

/-- JS `String(v)` where `v` may be `undefined` (an absent property). -/
def jsToStringOpt : Option Json → String
  | none => "undefined"
  | some v => jsToString v

/-- Object spread `{...v}`: objects contribute their fields, strings and
arrays their indexed elements, primitives nothing. -/
def Json.spreadFields : Json → List (String × Json)
  | .obj fs => fs
  | .str s => (s.data.enum.map fun p => (toString p.1, Json.str (String.singleton p.2)))
  | .arr xs => (xs.enum.map fun p => (toString p.1, p.2))
  | _ => []

/-- The body of the map callback of `getResources`,
`resource => ({...resource, id: String(resource.id)})`: property access
on `null` throws, so the result is an `Except`. -/
def normalizeRecord (r : Json) : Except String Json :=
  match r.getProp "id" with
  | .error e => .error e
  | .ok idv => .ok (Json.obj (setField r.spreadFields "id" (Json.str (jsToStringOpt idv))))

/-- JS `Array.prototype.map` with a callback that may throw: the first throw
propagates. -/
def mapThrow (f : Json → Except String Json) : List Json → Except String (List Json)
  | [] => .ok []
  | x :: xs =>
      match f x with
      | .error e => .error e
      | .ok y =>
          match mapThrow f xs with
          | .error e => .error e
          | .ok ys => .ok (y :: ys)

/-- A settled `fetch` response whose body has already been read as JSON:
`ok` is `response.ok`, `body` the parsed value. -/
structure FetchResp where
  ok : Bool
  body : Json

/-- The function `getResources` throws on a non-ok status; takes `data.data || []`
(property access, truthiness, fallback to `[]`); maps the id
normalization over the list, which throws a `TypeError` when the value
being mapped is not an array. -/
def getResources (resp : FetchResp) : Except String (List Json) :=
  if !resp.ok then .error "Failed to fetch resources"
  else
    match resp.body.getProp "data" with
    | .error e => .error e
    | .ok dataField =>
        let resources : Json :=
          match dataField with
          | some v => if v.truthy then v else Json.arr []
          | none => Json.arr []
        match resources with
        | .arr xs => mapThrow normalizeRecord xs
        | _ => .error "TypeError: resources.map is not a function"

/-- The textual identifier `getResources` writes into a record with the
given fields: `String(resource.id)`. -/
def idString (fs : List (String × Json)) : String :=
  jsToStringOpt (lookupField fs "id")

/-- What `normalizeRecord` produces on an object record. -/
def normalizeObjFields (fs : List (String × Json)) : Json :=
  Json.obj (setField fs "id" (Json.str (idString fs)))

/-! ### Helper lemmas -/

/-- Looking up the key just written by `setField` yields the new value. -/
theorem lookupField_setField_self (fs : List (String × Json)) (key : String) (v : Json) :
    lookupField (setField fs key v) key = some v := by
  induction fs with
  | nil => simp [setField, lookupField]
  | cons p fs ih =>
      obtain ⟨k0, w⟩ := p
      by_cases h : k0 = key
      · simp [setField, lookupField, h]
      · simp [setField, lookupField, h, ih]

/-- The function `setField` leaves the binding of every other key untouched. -/
theorem lookupField_setField_other (fs : List (String × Json)) (key k : String)
    (v : Json) (h : k ≠ key) :
    lookupField (setField fs key v) k = lookupField fs k := by
  induction fs with
  | nil => simp [setField, lookupField, Ne.symm h]
  | cons p fs ih =>
      obtain ⟨k0, w⟩ := p
      by_cases h0 : k0 = key
      · subst h0
        simp [setField, lookupField, Ne.symm h]
      · simp [setField, lookupField, h0, ih]

/-- Applying `normalizeRecord` to an object record never throws and rewrites
exactly the `id` field. -/
theorem normalizeRecord_obj (fs : List (String × Json)) :
    normalizeRecord (Json.obj fs) = .ok (normalizeObjFields fs) := rfl

/-- Mapping the id normalization over a list of object records succeeds
elementwise. -/
theorem mapThrow_normalizeRecord_objs (ys : List (List (String × Json))) :
    mapThrow normalizeRecord (ys.map Json.obj) = .ok (ys.map normalizeObjFields) := by
  induction ys with
  | nil => rfl
  | cons fs ys ih =>
      simp only [List.map_cons, mapThrow, normalizeRecord_obj, ih]

/-! ### Claim theorems: session store -/

/-- C1: when the auth backend fails, `login` records the failure message
in `error`, re-raises the same failure to the caller, and leaves both the
in-memory `user` and the durable stored entry unchanged. -/
theorem login_failure_preserves_state (e : String) (st : AuthState) :
    (login (.error e) st).1.user = st.user ∧
    (login (.error e) st).1.storage = st.storage ∧
    (login (.error e) st).1.error = some e ∧
    (login (.error e) st).2 = .error e :=
  ⟨rfl, rfl, rfl, rfl⟩

/-- C2: when the auth backend succeeds with record `u`, `login` sets
`user` to exactly `u`, returns `u` to the caller, and writes `u` to the
durable entry so that decoding the stored string (with any `parse` that
inverts `JSON.stringify` at `u`) yields the in-memory `user`. -/
theorem login_success_persists_user (u : Json) (st : AuthState)
    (parse : String → Option Json)
    (hrt : parse (Json.stringify u) = some u) :
    (login (.ok u) st).1.user = u ∧
    (login (.ok u) st).2 = .ok u ∧
    ∃ s, (login (.ok u) st).1.storage = some s ∧
      parse s = some ((login (.ok u) st).1.user) :=
  ⟨rfl, rfl, Json.stringify u, rfl, hrt⟩

/-- A decode function for the witness of C2: inverts `JSON.stringify` on
the single record the witness uses. -/
def witnessParseLogin (s : String) : Option Json :=
  if s = "\"alice\"" then some (Json.str "alice") else none

/-- Witness for C2 at the concrete record `"alice"`. -/
theorem login_success_persists_user_witness :
    witnessParseLogin (Json.stringify (Json.str "alice")) = some (Json.str "alice") ∧
    ((login (.ok (Json.str "alice")) (initialAuthState none)).1.user = Json.str "alice" ∧
     (login (.ok (Json.str "alice")) (initialAuthState none)).2 = .ok (Json.str "alice") ∧
     ∃ s, (login (.ok (Json.str "alice")) (initialAuthState none)).1.storage = some s ∧
       witnessParseLogin s =
         some ((login (.ok (Json.str "alice")) (initialAuthState none)).1.user)) :=
  ⟨rfl, login_success_persists_user (Json.str "alice")
    (initialAuthState none) witnessParseLogin (rfl)⟩

/-- C4: every operation of the session store ends with `loading = false`,
whichever way it settles. -/
theorem operations_end_not_loading (parse : String → Option Json)
    (lres : Except String Json) (sres : Except String Unit) (st : AuthState) :
    (restore parse st).loading = false ∧
    (login lres st).1.loading = false ∧
    (signup sres st).1.loading = false := by
  refine ⟨?_, ?_, ?_⟩
  · cases hst : st.storage with
    | none => simp [restore, hst]
    | some s =>
        by_cases hs : s = ""
        · simp [restore, hst, hs]
        · cases hp : parse s <;> simp [restore, hst, hs, hp]
  · cases lres <;> rfl
  · cases sres <;> rfl

/-- C5: a successful `signup` changes neither `user` nor the durable
entry: signup never establishes a session. -/
theorem signup_success_frame (st : AuthState) :
    (signup (.ok ()) st).1.user = st.user ∧
    (signup (.ok ()) st).1.storage = st.storage :=
  ⟨rfl, rfl⟩

/-- C9: restore performs no shape validation: whenever the stored string
parses (under any `parse` that, like `JSON.parse`, fails on the empty
string), `user` becomes the parsed value — whatever its shape — and the
entry is kept. -/
theorem restore_no_shape_validation (parse : String → Option Json)
    (st : AuthState) (s : String) (v : Json)
    (hempty : parse "" = none)
    (hst : st.storage = some s) (hp : parse s = some v) :
    (restore parse st).user = v ∧
    (restore parse st).storage = st.storage ∧
    (restore parse st).loading = false := by
  have hne : s ≠ "" := by
    intro h
    rw [h, hempty] at hp
    exact Option.noConfusion hp
  simp [restore, hst, hne, hp]

/-- A decode function for the witness of C9: parses the single stored
string the witness uses to a non-object JSON value (a number). -/
def witnessParseRestore (s : String) : Option Json :=
  if s = "5" then some (Json.num 5) else none

/-- Witness for C9: a stored entry parsing to the bare number `5` is put
into `user` unchanged. -/
theorem restore_no_shape_validation_witness :
    witnessParseRestore "" = none ∧
    (initialAuthState (some "5")).storage = some "5" ∧
    witnessParseRestore "5" = some (Json.num 5) ∧
    ((restore witnessParseRestore (initialAuthState (some "5"))).user = Json.num 5 ∧
     (restore witnessParseRestore (initialAuthState (some "5"))).storage =
       (initialAuthState (some "5")).storage ∧
     (restore witnessParseRestore (initialAuthState (some "5"))).loading = false) :=
  ⟨rfl, rfl, rfl,
   restore_no_shape_validation witnessParseRestore (initialAuthState (some "5"))
     "5" (Json.num 5) (rfl) rfl (rfl)⟩

/-- C3 counterexample: the restore guard `if (storedUser)` is a JS
truthiness test, so a durable entry holding the empty string — present,
and undecodable since `JSON.parse("")` throws (the parse used here fails
on every string, in particular on `""`) — is never parsed and therefore
NOT deleted, contradicting the claim that every present-but-undecodable
entry is deleted. -/
theorem restore_empty_entry_not_deleted :
    (restore (fun _ => none) (initialAuthState (some ""))).storage = some "" ∧
    ¬ (restore (fun _ => none) (initialAuthState (some ""))).storage = none := by
  refine ⟨rfl, ?_⟩
  intro h
  rw [show (restore (fun _ => none) (initialAuthState (some ""))).storage = some ""
    from rfl] at h
  exact Option.noConfusion h

/-- C3 amended: a present, NONEMPTY, undecodable durable entry is deleted
with `user` left as none and `loading` ending false; a present but EMPTY
entry is skipped by the truthiness guard and left in place (still with
`user` none and `loading` false); an absent entry leaves `user` none and
`loading` ends false.  In all cases `restore` is a total function — no
failure propagates to the caller. -/
theorem restore_undecodable_cases (parse : String → Option Json)
    (st : AuthState) (hu : st.user = Json.null) :
    (∀ s, st.storage = some s → s ≠ "" → parse s = none →
      (restore parse st).storage = none ∧
      (restore parse st).user = Json.null ∧
      (restore parse st).loading = false) ∧
    (st.storage = some "" →
      (restore parse st).storage = some "" ∧
      (restore parse st).user = Json.null ∧
      (restore parse st).loading = false) ∧
    (st.storage = none →
      (restore parse st).user = Json.null ∧
      (restore parse st).loading = false ∧
      (restore parse st).storage = none) := by
  refine ⟨?_, ?_, ?_⟩
  · intro s hs hne hp
    simp [restore, hs, hne, hp, hu]
  · intro hs
    simp [restore, hs, hu]
  · intro hs
    simp [restore, hs, hu]

/-- Witness for the amended C3, exercising the nonempty undecodable case
at the stored string `"?"` under a parse that always fails. -/
theorem restore_undecodable_cases_witness :
    (initialAuthState (some "?")).user = Json.null ∧
    (restore (fun _ => none) (initialAuthState (some "?"))).storage = none ∧
    (restore (fun _ => none) (initialAuthState (some "?"))).user = Json.null ∧
    (restore (fun _ => none) (initialAuthState (some "?"))).loading = false :=
  ⟨rfl, (restore_undecodable_cases (fun _ => none) (initialAuthState (some "?"))
    rfl).1 "?" rfl (by decide) rfl⟩

/-! ### Claim theorems: archive upload client -/

/-- A string extended by any suffix starts with itself. -/
theorem strStartsWith_append_self (p rest : String) :
    strStartsWith (p ++ rest) p = true := by
  rw [strStartsWith, String.data_append]
  exact List.isPrefixOf_iff_prefix.2 ⟨rest.data, rfl⟩

/-- A type beginning with `image/` does not start with `video/`. -/
theorem image_append_not_video (rest : String) :
    strStartsWith ("image/" ++ rest) "video/" = false := by
  rw [strStartsWith, String.data_append]
  rfl

/-- A type beginning with `image/` is not `application/pdf`. -/
theorem image_append_ne_pdf (rest : String) :
    ("image/" ++ rest) ≠ "application/pdf" := by
  intro h
  have h2 : some 'i' = some 'a' := congrArg (fun s => s.data.head?) h
  exact absurd (Option.some.inj h2) (by decide)

/-- C7: the media classification maps `application/pdf` to `"texts"`,
every `video/`-prefixed type to `"movies"`, every `image/`-prefixed type
to `"image"`, and everything else (no `video/` or `image/` prefix, not
`application/pdf`) to the default `"texts"`. -/
theorem getMediaType_classification :
    getMediaType "application/pdf" = "texts" ∧
    (∀ rest, getMediaType ("video/" ++ rest) = "movies") ∧
    (∀ rest, getMediaType ("image/" ++ rest) = "image") ∧
    ∀ t, strStartsWith t "video/" = false → t ≠ "application/pdf" →
      strStartsWith t "image/" = false → getMediaType t = "texts" := by
  refine ⟨rfl, ?_, ?_, ?_⟩
  · intro rest
    simp [getMediaType, strStartsWith_append_self]
  · intro rest
    simp [getMediaType, image_append_not_video, image_append_ne_pdf,
      strStartsWith_append_self]
  · intro t h1 h2 h3
    simp [getMediaType, h1, h2, h3]

/-- Witness for the default branch of C7 at the concrete type `text/plain`. -/
theorem getMediaType_classification_witness :
    strStartsWith "text/plain" "video/" = false ∧
    strStartsWith "text/plain" "image/" = false ∧
    getMediaType "text/plain" = "texts" :=
  ⟨rfl, rfl, getMediaType_classification.2.2.2 "text/plain" rfl
    (by decide) rfl⟩

/-- C8: with either credential unset (the empty string), `uploadFile`
rejects with the configuration error, and its outcome is independent of
the transport: no request is ever handed to the transport layer. -/
theorem uploadFile_missing_config_rejects (accessKey secretKey : String)
    (enc : String → String) (fileName fileType itemName : String)
    (t1 t2 : UploadReq → TransportResult)
    (h : accessKey = "" ∨ secretKey = "") :
    uploadFile accessKey secretKey enc fileName fileType itemName t1 =
      .error configErrorMessage ∧
    uploadFile accessKey secretKey enc fileName fileType itemName t1 =
      uploadFile accessKey secretKey enc fileName fileType itemName t2 := by
  have huf : ∀ t : UploadReq → TransportResult,
      uploadFile accessKey secretKey enc fileName fileType itemName t =
        .error configErrorMessage := by
    intro t
    unfold uploadFile
    rw [if_pos h]
  exact ⟨huf t1, (huf t1).trans (huf t2).symm⟩

/-- Witness for C8 with an empty access key, under two transports that
would behave differently were they ever consulted. -/
theorem uploadFile_missing_config_rejects_witness :
    (("" : String) = "" ∨ ("sk" : String) = "") ∧
    (uploadFile "" "sk" id "f.pdf" "application/pdf" "item"
        (fun _ => .netError) = .error configErrorMessage ∧
     uploadFile "" "sk" id "f.pdf" "application/pdf" "item"
        (fun _ => .netError) =
       uploadFile "" "sk" id "f.pdf" "application/pdf" "item"
        (fun _ => .status 200 "OK" "")) :=
  ⟨Or.inl rfl, uploadFile_missing_config_rejects "" "sk" id "f.pdf"
    "application/pdf" "item" (fun _ => .netError)
    (fun _ => .status 200 "OK" "") (Or.inl rfl)⟩

/-! ### Claim theorems: resource backend client -/

/-- C6: when `list()` succeeds and the response `data` array holds
object records (ids arriving as numbers or strings alike), every returned
record carries a string identifier equal to the textual form
`String(resource.id)` of the incoming identifier. -/
theorem getResources_normalizes_ids (resp : FetchResp)
    (ys : List (List (String × Json)))
    (hok : resp.ok = true)
    (hdata : resp.body.getProp "data" = .ok (some (Json.arr (ys.map Json.obj)))) :
    getResources resp = .ok (ys.map normalizeObjFields) ∧
    ∀ fs ∈ ys, ∃ out, normalizeObjFields fs = Json.obj out ∧
      lookupField out "id" = some (Json.str (idString fs)) := by
  constructor
  · simp [getResources, hok, hdata, Json.truthy, mapThrow_normalizeRecord_objs]
  · intro fs _
    exact ⟨_, rfl, lookupField_setField_self fs "id" (Json.str (idString fs))⟩

/-- Records for the witness of C6: one numeric and one string id. -/
def mixedRecords : List (List (String × Json)) :=
  [[("id", Json.num 7), ("title", Json.str "t1")],
   [("id", Json.str "8"), ("title", Json.str "t2")]]

/-- A successful list response carrying `mixedRecords` for the C6 witness. -/
def respMixedIds : FetchResp :=
  { ok := true, body := Json.obj [("data", Json.arr (mixedRecords.map Json.obj))] }

/-- Witness for C6: the numeric id `7` and the string id `"8"` both come
back as the strings `"7"` and `"8"`, other fields intact. -/
theorem getResources_normalizes_ids_witness :
    getResources respMixedIds =
      .ok [Json.obj [("id", Json.str "7"), ("title", Json.str "t1")],
           Json.obj [("id", Json.str "8"), ("title", Json.str "t2")]] :=
  (getResources_normalizes_ids respMixedIds mixedRecords rfl rfl).1

/-- C10: `list()` rewrites only the `id` field of each incoming object
record — every other field keeps the incoming value — and a response body
without a `data` field yields the empty list rather than a failure. -/
theorem getResources_frame_and_missing_data :
    (∀ fs k, k ≠ "id" →
       normalizeRecord (Json.obj fs) =
         .ok (Json.obj (setField fs "id" (Json.str (idString fs)))) ∧
       lookupField (setField fs "id" (Json.str (idString fs))) k =
         lookupField fs k) ∧
    (∀ resp bfs, resp.ok = true → resp.body = Json.obj bfs →
       lookupField bfs "data" = none → getResources resp = .ok []) := by
  constructor
  · intro fs k hk
    exact ⟨rfl, lookupField_setField_other fs "id" k _ hk⟩
  · intro resp bfs hok hb hd
    simp [getResources, hok, hb, Json.getProp, hd, mapThrow]

/-- Witness for C10: the `title` field survives normalization unchanged,
and a body whose only field is `x` (no `data`) lists as `[]`. -/
theorem getResources_frame_and_missing_data_witness :
    ("title" : String) ≠ "id" ∧
    lookupField (setField [("id", Json.num 7), ("title", Json.str "t")] "id"
        (Json.str (idString [("id", Json.num 7), ("title", Json.str "t")])))
        "title" =
      lookupField [("id", Json.num 7), ("title", Json.str "t")] "title" ∧
    getResources ⟨true, Json.obj [("x", Json.num 1)]⟩ = .ok [] :=
  ⟨by decide,
   (getResources_frame_and_missing_data.1
      [("id", Json.num 7), ("title", Json.str "t")] "title" (by decide)).2,
   getResources_frame_and_missing_data.2 ⟨true, Json.obj [("x", Json.num 1)]⟩
     [("x", Json.num 1)] rfl rfl rfl⟩
